import Mathlib

/-!
Shallow embedding of `src/motor_control_ver1.3.2.py`: a two-wheel
differential-drive motor controller driven by single-key input.

Modelling conventions:
* Python `float` values (speeds, balance factors, duty cycles) are modelled
  as `ℚ`; `power` is a Python `int`, modelled as `ℤ`.
* The pigpio PWM capability is modelled by recording the calls to
  `set_PWM_dutycycle` as a list of `PwmWrite` events.
* The Python `dict` `pins` is modelled as an association list
  `List (String × Nat)`; a failed key lookup (Python `KeyError`) is
  modelled by an error flag on the result, together with the PWM writes
  that happened before the error was raised.
-/

/-- One call to `pi.set_PWM_dutycycle(pin, duty)`. -/
structure PwmWrite where
  pin : Nat
  duty : ℚ
deriving DecidableEq, Repr

/-- The mutable state of a `MotorController`: `self.power` (line 53) and
`self.balance = [L, R]` (line 54). -/
structure ControllerState where
  power : ℤ
  balanceL : ℚ
  balanceR : ℚ
deriving DecidableEq, Repr

/-- Python `dict.__getitem__`: `pins[key]`, `none` when the key is absent
(Python raises `KeyError`). -/
def lookupPin (pins : List (String × Nat)) (key : String) : Option Nat :=
  (pins.find? (fun p => p.1 == key)).map (fun p => p.2)

/-- The pins dictionary constructed in `main` (line 187):
`{'L_A1': 12, 'L_A2': 13, 'R_B1': 18, 'R_B2': 19}`. -/
def mainPins : List (String × Nat) :=
  [("L_A1", 12), ("L_A2", 13), ("R_B1", 18), ("R_B2", 19)]

namespace MotorController

/-- `duty_forward = max(0.0, speed)` (line 68). -/
def duty_forward (speed : ℚ) : ℚ := max 0 speed

/-- `duty_backward = max(0.0, -speed)` (line 69). -/
def duty_backward (speed : ℚ) : ℚ := max 0 (-speed)

/-- `_apply_pwm(forward_pin, backward_pin, speed)` (lines 56-72): computes the
two duty cycles from the signed speed and writes them to the two pins. -/
def apply_pwm (forward_pin backward_pin : Nat) (speed : ℚ) : List PwmWrite :=
  [⟨forward_pin, duty_forward speed⟩, ⟨backward_pin, duty_backward speed⟩]

/-- `set_speed(left_speed, right_speed)` (lines 74-100): applies the balance
factors, then looks up `'L_f'`, `'L_b'` and applies PWM to the left motor,
then looks up `'R_f'`, `'R_b'` and applies PWM to the right motor.  Returns
the PWM writes performed and an error flag: `true` when a pin lookup raised
`KeyError`, in which case only the writes made before the error appear. -/
def set_speed (pins : List (String × Nat)) (st : ControllerState)
    (left_speed right_speed : ℚ) : List PwmWrite × Bool :=
  let left_actual := left_speed * st.balanceL
  let right_actual := right_speed * st.balanceR
  match lookupPin pins "L_f", lookupPin pins "L_b" with
  | some lf, some lb =>
      let leftWrites := apply_pwm lf lb left_actual
      match lookupPin pins "R_f", lookupPin pins "R_b" with
      | some rf, some rb => (leftWrites ++ apply_pwm rf rb right_actual, false)
      | _, _ => (leftWrites, true)
  | _, _ => ([], true)

/-- `stop()` (lines 102-104): `set_speed(0.0, 0.0)`. -/
def stop (pins : List (String × Nat)) (st : ControllerState) :
    List PwmWrite × Bool :=
  set_speed pins st 0 0

/-- `forward()` (lines 107-109): `set_speed(power, power)`. -/
def forward (pins : List (String × Nat)) (st : ControllerState) :
    List PwmWrite × Bool :=
  set_speed pins st st.power st.power

/-- `backward()` (lines 111-113): `set_speed(-power, -power)`. -/
def backward (pins : List (String × Nat)) (st : ControllerState) :
    List PwmWrite × Bool :=
  set_speed pins st (-st.power) (-st.power)

/-- `turn_left()` (lines 115-117): `set_speed(-power, power)`. -/
def turn_left (pins : List (String × Nat)) (st : ControllerState) :
    List PwmWrite × Bool :=
  set_speed pins st (-st.power) st.power

/-- `turn_right()` (lines 119-121): `set_speed(power, -power)`. -/
def turn_right (pins : List (String × Nat)) (st : ControllerState) :
    List PwmWrite × Bool :=
  set_speed pins st st.power (-st.power)

/-- `pivot_left()` (lines 123-125): `set_speed(power, 0.0)`. -/
def pivot_left (pins : List (String × Nat)) (st : ControllerState) :
    List PwmWrite × Bool :=
  set_speed pins st st.power 0

/-- `pivot_right()` (lines 127-129): `set_speed(0.0, power)`. -/
def pivot_right (pins : List (String × Nat)) (st : ControllerState) :
    List PwmWrite × Bool :=
  set_speed pins st 0 st.power

/-- `adjust_power(delta)` (lines 132-137):
`self.power = max(0, min(100, self.power + delta))`. -/
def adjust_power (st : ControllerState) (delta : ℤ) : ControllerState :=
  { st with power := max 0 (min 100 (st.power + delta)) }

/-- `adjust_balance(delta)` (lines 139-148): `new_left` and `new_right` are
both computed from the balance values before the call, then each is clamped
to `[0.5, 1.5]` and stored. -/
def adjust_balance (st : ControllerState) (delta : ℚ) : ControllerState :=
  let new_left := st.balanceL + delta
  let new_right := st.balanceR - delta
  { st with
      balanceL := max (1/2) (min (3/2) new_left)
      balanceR := max (1/2) (min (3/2) new_right) }

end MotorController

/-- The seven motion commands of the controller. -/
inductive Command
  | forward
  | backward
  | turn_left
  | turn_right
  | pivot_left
  | pivot_right
  | stop
deriving DecidableEq, Repr

/-- Run one motion command on the controller: dispatch to the corresponding
method of `MotorController`. -/
def runCommand (pins : List (String × Nat)) (st : ControllerState) :
    Command → List PwmWrite × Bool
  | .forward => MotorController.forward pins st
  | .backward => MotorController.backward pins st
  | .turn_left => MotorController.turn_left pins st
  | .turn_right => MotorController.turn_right pins st
  | .pivot_left => MotorController.pivot_left pins st
  | .pivot_right => MotorController.pivot_right pins st
  | .stop => MotorController.stop pins st

/-- A controller state reachable by the adjustment commands: power in
`[0, 100]`, each balance factor in `[0.5, 1.5]`. -/
def validState (st : ControllerState) : Prop :=
  0 ≤ st.power ∧ st.power ≤ 100 ∧
  1/2 ≤ st.balanceL ∧ st.balanceL ≤ 3/2 ∧
  1/2 ≤ st.balanceR ∧ st.balanceR ≤ 3/2

instance (st : ControllerState) : Decidable (validState st) := by
  unfold validState; infer_instance

/-- The initial state set in `__init__` (lines 53-54): power 80,
balance `[1.0, 1.0]`. -/
def initialState : ControllerState := ⟨80, 1, 1⟩

/-- A pins dictionary carrying the keys `set_speed` actually looks up. -/
def mkPins (lf lb rf rb : Nat) : List (String × Nat) :=
  [("L_f", lf), ("L_b", lb), ("R_f", rf), ("R_b", rb)]

/-- The pin numbers of `main` under the keys `set_speed` expects; used as a
concrete test double for the duty-value claims. -/
def goodPins : List (String × Nat) := mkPins 12 13 18 19

/-! ## The command dispatcher and main loop (lines 181-224) -/

/-- A bound operation in the `actions` dictionary of `main` (lines 191-203):
either a motion command, or an adjustment with its baked-in delta. -/
inductive KeyAction
  | motion (c : Command)
  | adjPower (delta : ℤ)
  | adjBalance (delta : ℚ)
deriving DecidableEq, Repr

/-- The `actions` dictionary of `main` (lines 191-203), key by key. -/
def actionsList : List (Char × KeyAction) :=
  [('w', .motion .forward),
   ('s', .motion .backward),
   ('a', .motion .turn_left),
   ('d', .motion .turn_right),
   ('q', .motion .pivot_left),
   ('e', .motion .pivot_right),
   ('k', .adjPower 5),
   ('l', .adjPower (-5)),
   (',', .adjBalance (1/20)),
   ('.', .adjBalance (-(1/20))),
   (' ', .motion .stop)]

/-- `actions.get(key)` (line 217). -/
def lookupAction (key : Char) : Option KeyAction :=
  (actionsList.find? (fun p => p.1 == key)).map (fun p => p.2)

/-- Run one bound action: a motion command emits PWM writes and leaves the
state alone (possibly raising `KeyError`); an adjustment mutates the state
and emits nothing. -/
def runAction (pins : List (String × Nat)) (st : ControllerState) :
    KeyAction → ControllerState × List PwmWrite × Bool
  | .motion c => let r := runCommand pins st c; (st, r.1, r.2)
  | .adjPower d => (MotorController.adjust_power st d, [], false)
  | .adjBalance d => (MotorController.adjust_balance st d, [], false)

/-- Outcome of one iteration of the main loop for one read key. -/
inductive StepOut
  | brk
  | cont (st : ControllerState) (writes : List PwmWrite) (err : Bool)
deriving DecidableEq, Repr

/-- One iteration of the dispatch loop (lines 210-219) for a key already
lowercased by `reader.get`: `'x'` breaks; otherwise the bound action runs if
one exists and nothing happens if none is bound. -/
def loopStep (pins : List (String × Nat)) (st : ControllerState)
    (key : Char) : StepOut :=
  if key = 'x' then .brk
  else
    match lookupAction key with
    | none => .cont st [] false
    | some a => let r := runAction pins st a; .cont r.1 r.2.1 r.2.2

/-! ## Shutdown (lines 208-224) -/

/-- How control leaves the `while` loop: the `'x'` exit signal (`break`,
line 215), or an exception escaping the loop body. -/
inductive LoopExit
  | exitSignal
  | exception
deriving DecidableEq, Repr

/-- An observable effect on the external capabilities during shutdown. -/
inductive Event
  | restoreTerminal
  | pwm (w : PwmWrite)
  | piStop
deriving DecidableEq, Repr

/-- The effects performed from the moment control leaves the loop body
(lines 208-224), in order, with a flag marking abnormal termination of
`main`.  Python semantics of the `with` statement: `KeyReader.__exit__`
(restoring the terminal mode, lines 163-173) runs on both exit paths; the
statements after the `with` block (`controller.stop()`, `pi.stop()`, lines
222-223) run only when the block was left without a pending exception, and
`pi.stop()` runs only if `controller.stop()` did not raise. -/
def cleanup (pins : List (String × Nat)) (st : ControllerState) :
    LoopExit → List Event × Bool
  | .exception => ([.restoreTerminal], true)
  | .exitSignal =>
      let r := MotorController.stop pins st
      if r.2 then (.restoreTerminal :: r.1.map Event.pwm, true)
      else (.restoreTerminal :: r.1.map Event.pwm ++ [.piStop], false)

/-! ## Spec-side definitions (for refinement statements) -/

/-- The motion-command-to-signed-speed table as the spec states it
(§4.1): forward (+p,+p), backward (−p,−p), turn_left (−p,+p),
turn_right (+p,−p), pivot_left (+p,0), pivot_right (0,+p), stop (0,0). -/
def claimedSpeeds (p : ℤ) : Command → ℚ × ℚ
  | .forward => (p, p)
  | .backward => (-p, -p)
  | .turn_left => (-p, p)
  | .turn_right => (p, -p)
  | .pivot_left => (p, 0)
  | .pivot_right => (0, p)
  | .stop => (0, 0)

/-- Every write in the list has its duty value in `[0, 150]`
(`150 = 1.5 × pwm_range` with the default range 100). -/
def dutyInAmendedRange (ws : List PwmWrite) : Prop :=
  ∀ w ∈ ws, 0 ≤ w.duty ∧ w.duty ≤ 150

/-- The duty-bound claim as stated: on every reachable state and motion
command, every duty value written is at most the default `pwm_range` 100. -/
def dutyBoundClaim : Prop :=
  ∀ (pins : List (String × Nat)) (st : ControllerState) (c : Command),
    validState st → ∀ w ∈ (runCommand pins st c).1, w.duty ≤ 100

/-! ## Claims -/

/-- Claim C1 (refuted by the code): with the pins dictionary of `main`
(keys `L_A1`, `L_A2`, `R_B1`, `R_B2`), every motion command raises
`KeyError` in `set_speed` (which looks up `L_f`) before any duty value is
written: the result is no PWM writes and the error flag set. -/
theorem mainPins_motion_raises_keyerror (st : ControllerState) (c : Command) :
    runCommand mainPins st c = ([], true) := by
  cases c <;> rfl

/-- Claim C3 (refuted by the code): on either exit of the main loop, the
only shutdown effect is the terminal-mode restore and `main` terminates
abnormally: on the `'x'` path `controller.stop()` raises `KeyError` before
any duty write, so `pi.stop()` is skipped; on the exception path both
`controller.stop()` and `pi.stop()` are skipped entirely. -/
theorem shutdown_events_missing (st : ControllerState) (ex : LoopExit) :
    cleanup mainPins st ex = ([Event.restoreTerminal], true) := by
  cases ex <;> rfl

/-- Claim C4: `adjust_power` is exactly the saturating clamp: from any power
in `[0,100]` and any integer delta the new power is
`clamp(p + delta, 0, 100)`, hence in `[0,100]`; and from the initial power
80, three presses of `+5` give 95 and a fourth gives 100. -/
theorem adjust_power_clamp :
    (∀ (st : ControllerState) (delta : ℤ), 0 ≤ st.power → st.power ≤ 100 →
      (MotorController.adjust_power st delta).power =
          max 0 (min 100 (st.power + delta)) ∧
        0 ≤ (MotorController.adjust_power st delta).power ∧
        (MotorController.adjust_power st delta).power ≤ 100) ∧
    ((fun st => MotorController.adjust_power st 5)^[3] initialState).power = 95 ∧
    ((fun st => MotorController.adjust_power st 5)^[4] initialState).power = 100 := by
  refine ⟨fun st delta h1 h2 => ⟨rfl, ?_, ?_⟩, by decide, by decide⟩
  · simp [MotorController.adjust_power]
  · simp [MotorController.adjust_power]

/-- Witness for C4 at the initial state and delta `+5`. -/
theorem adjust_power_clamp_witness :
    ((0 : ℤ) ≤ initialState.power ∧ initialState.power ≤ 100) ∧
    ((MotorController.adjust_power initialState 5).power =
        max 0 (min 100 (initialState.power + 5)) ∧
      0 ≤ (MotorController.adjust_power initialState 5).power ∧
      (MotorController.adjust_power initialState 5).power ≤ 100) :=
  ⟨⟨by decide, by decide⟩, adjust_power_clamp.1 initialState 5 (by decide) (by decide)⟩

/-- Claim C5: `adjust_balance` clamps each side independently from the
pre-call values: the new balance is
`(clamp(L + delta, 0.5, 1.5), clamp(R - delta, 0.5, 1.5))`, and the power
is untouched. -/
theorem adjust_balance_clamp (st : ControllerState) (delta : ℚ)
    (hL1 : 1/2 ≤ st.balanceL) (hL2 : st.balanceL ≤ 3/2)
    (hR1 : 1/2 ≤ st.balanceR) (hR2 : st.balanceR ≤ 3/2) :
    (MotorController.adjust_balance st delta).balanceL =
        max (1/2) (min (3/2) (st.balanceL + delta)) ∧
      (MotorController.adjust_balance st delta).balanceR =
        max (1/2) (min (3/2) (st.balanceR - delta)) ∧
      (MotorController.adjust_balance st delta).power = st.power :=
  ⟨rfl, rfl, rfl⟩

/-- Witness for C5 at the initial balance and delta `+1` (both clamps
active: the result is `(1.5, 0.5)`). -/
theorem adjust_balance_clamp_witness :
    (1/2 ≤ initialState.balanceL ∧ initialState.balanceL ≤ 3/2 ∧
      1/2 ≤ initialState.balanceR ∧ initialState.balanceR ≤ 3/2) ∧
    ((MotorController.adjust_balance initialState 1).balanceL =
        max (1/2) (min (3/2) (initialState.balanceL + 1)) ∧
      (MotorController.adjust_balance initialState 1).balanceR =
        max (1/2) (min (3/2) (initialState.balanceR - 1)) ∧
      (MotorController.adjust_balance initialState 1).power = initialState.power) :=
  ⟨by norm_num [initialState], adjust_balance_clamp initialState 1
    (by norm_num [initialState]) (by norm_num [initialState])
    (by norm_num [initialState]) (by norm_num [initialState])⟩

/-- Claim C9: a key that is not `'x'` and not bound in the `actions`
dictionary is a no-op: one loop iteration keeps the state, performs no PWM
write and raises nothing. -/
theorem unrecognized_key_noop (pins : List (String × Nat))
    (st : ControllerState) (key : Char)
    (hx : key ≠ 'x') (hk : lookupAction key = none) :
    loopStep pins st key = .cont st [] false := by
  simp [loopStep, hx, hk]

/-- Witness for C9 at the unbound key `'z'`. -/
theorem unrecognized_key_noop_witness :
    (('z' : Char) ≠ 'x' ∧ lookupAction 'z' = none) ∧
    loopStep mainPins initialState 'z' = .cont initialState [] false :=
  ⟨⟨by decide, by decide⟩,
    unrecognized_key_noop mainPins initialState 'z' (by decide) (by decide)⟩

/-- Claim C10: every motion command leaves the controller state exactly as
it was; only the adjustment actions build a new state. -/
theorem motion_preserves_state (pins : List (String × Nat))
    (st : ControllerState) (c : Command) :
    (runAction pins st (KeyAction.motion c)).1 = st := rfl

/-- Normal form of a motion command on a pins dictionary that carries the
keys `set_speed` looks up: the four writes, in order, with the balance
factors applied to the signed speeds of the spec table. -/
theorem runCommand_mkPins (lf lb rf rb : Nat) (st : ControllerState)
    (c : Command) :
    runCommand (mkPins lf lb rf rb) st c =
      ([⟨lf, MotorController.duty_forward ((claimedSpeeds st.power c).1 * st.balanceL)⟩,
        ⟨lb, MotorController.duty_backward ((claimedSpeeds st.power c).1 * st.balanceL)⟩,
        ⟨rf, MotorController.duty_forward ((claimedSpeeds st.power c).2 * st.balanceR)⟩,
        ⟨rb, MotorController.duty_backward ((claimedSpeeds st.power c).2 * st.balanceR)⟩],
       false) := by
  cases c <;> rfl

/-- Claim C6: each motion command passes exactly the signed speed pair of
the spec table (§4.1) to `set_speed`. -/
theorem motion_speed_table (pins : List (String × Nat))
    (st : ControllerState) (c : Command) :
    runCommand pins st c =
      MotorController.set_speed pins st
        (claimedSpeeds st.power c).1 (claimedSpeeds st.power c).2 := by
  cases c <;> rfl

/-- Claim C7: balance scaling is multiplicative and applied after power
selection: for every motion command the four written duties come from
`left_speed * left_factor` and `right_speed * right_factor`; concretely,
with power 80 and balance `(1.2, 0.8)`, `forward()` writes left forward
duty 96, right forward duty 64 and both backward duties 0. -/
theorem balance_scaling_multiplicative :
    (∀ (lf lb rf rb : Nat) (st : ControllerState) (c : Command),
      runCommand (mkPins lf lb rf rb) st c =
        ([⟨lf, MotorController.duty_forward ((claimedSpeeds st.power c).1 * st.balanceL)⟩,
          ⟨lb, MotorController.duty_backward ((claimedSpeeds st.power c).1 * st.balanceL)⟩,
          ⟨rf, MotorController.duty_forward ((claimedSpeeds st.power c).2 * st.balanceR)⟩,
          ⟨rb, MotorController.duty_backward ((claimedSpeeds st.power c).2 * st.balanceR)⟩],
         false)) ∧
    runCommand goodPins ⟨80, 6/5, 4/5⟩ Command.forward =
      ([⟨12, 96⟩, ⟨13, 0⟩, ⟨18, 64⟩, ⟨19, 0⟩], false) := by
  refine ⟨runCommand_mkPins, ?_⟩
  simp [runCommand, MotorController.forward, MotorController.set_speed,
    lookupPin, goodPins, mkPins, MotorController.apply_pwm,
    MotorController.duty_forward, MotorController.duty_backward]
  norm_num

/-- Claim C8: the duty-cycle pair is a pure function of the signed speed:
`forward_duty = max(0, s)`, `backward_duty = max(0, -s)`; both vanish at
`s = 0`, exactly one is nonzero for `s ≠ 0`, and both are bounded by `|s|`. -/
theorem duty_pure_function (s : ℚ) :
    MotorController.duty_forward s = max 0 s ∧
    MotorController.duty_backward s = max 0 (-s) ∧
    (s = 0 → MotorController.duty_forward s = 0 ∧ MotorController.duty_backward s = 0) ∧
    (s ≠ 0 →
      (MotorController.duty_forward s ≠ 0 ∧ MotorController.duty_backward s = 0) ∨
      (MotorController.duty_forward s = 0 ∧ MotorController.duty_backward s ≠ 0)) ∧
    MotorController.duty_forward s ≤ |s| ∧
    MotorController.duty_backward s ≤ |s| := by
  unfold MotorController.duty_forward MotorController.duty_backward
  refine ⟨rfl, rfl, ?_, ?_, ?_, ?_⟩
  · rintro rfl; simp
  · intro hs
    rcases lt_or_gt_of_ne hs with h | h
    · right
      constructor
      · exact max_eq_left h.le
      · rw [max_eq_right (by linarith : (0:ℚ) ≤ -s)]
        exact neg_ne_zero.mpr hs
    · left
      constructor
      · rw [max_eq_right h.le]; exact hs
      · exact max_eq_left (by linarith : -s ≤ 0)
  · exact max_le (abs_nonneg s) (le_abs_self s)
  · exact max_le (abs_nonneg s) (neg_le_abs s)

/-- Witness for C8 at the concrete speed `-2`. -/
theorem duty_pure_function_witness :
    MotorController.duty_forward (-2) = max 0 (-2) ∧
    MotorController.duty_backward (-2) = max 0 (-(-2)) ∧
    ((-2 : ℚ) = 0 → MotorController.duty_forward (-2) = 0 ∧
      MotorController.duty_backward (-2) = 0) ∧
    ((-2 : ℚ) ≠ 0 →
      (MotorController.duty_forward (-2) ≠ 0 ∧ MotorController.duty_backward (-2) = 0) ∨
      (MotorController.duty_forward (-2) = 0 ∧ MotorController.duty_backward (-2) ≠ 0)) ∧
    MotorController.duty_forward (-2) ≤ |(-2 : ℚ)| ∧
    MotorController.duty_backward (-2) ≤ |(-2 : ℚ)| :=
  duty_pure_function (-2)

/-- Both duty cycles derived from a speed of absolute value at most 150 lie
in `[0, 150]`. -/
theorem duty_value_bound (x : ℚ) (hx : |x| ≤ 150) :
    (0 ≤ MotorController.duty_forward x ∧ MotorController.duty_forward x ≤ 150) ∧
    (0 ≤ MotorController.duty_backward x ∧ MotorController.duty_backward x ≤ 150) := by
  unfold MotorController.duty_forward MotorController.duty_backward
  have h1 := abs_le.mp hx
  exact ⟨⟨le_max_left _ _, max_le (by norm_num) h1.2⟩,
    ⟨le_max_left _ _, max_le (by norm_num) (by linarith [h1.1])⟩⟩

/-- A speed of magnitude at most 100 scaled by a balance factor in
`[0.5, 1.5]` has magnitude at most 150. -/
theorem abs_scaled_le (s b : ℚ) (hs : |s| ≤ 100)
    (hb1 : 1/2 ≤ b) (hb2 : b ≤ 3/2) : |s * b| ≤ 150 := by
  rw [abs_mul]
  have hb : |b| ≤ 3/2 := abs_le.mpr ⟨by linarith, hb2⟩
  calc |s| * |b| ≤ 100 * (3/2) :=
        mul_le_mul hs hb (abs_nonneg b) (by norm_num)
    _ = 150 := by norm_num

/-- Every duty written by `set_speed` on speeds of magnitude at most 100 and
balance factors in `[0.5, 1.5]` lies in `[0, 150]`. -/
theorem set_speed_duty_bound (pins : List (String × Nat))
    (st : ControllerState) (l r : ℚ) (hl : |l| ≤ 100) (hr : |r| ≤ 100)
    (hbL1 : 1/2 ≤ st.balanceL) (hbL2 : st.balanceL ≤ 3/2)
    (hbR1 : 1/2 ≤ st.balanceR) (hbR2 : st.balanceR ≤ 3/2) :
    dutyInAmendedRange (MotorController.set_speed pins st l r).1 := by
  have hL := duty_value_bound (l * st.balanceL) (abs_scaled_le l st.balanceL hl hbL1 hbL2)
  have hR := duty_value_bound (r * st.balanceR) (abs_scaled_le r st.balanceR hr hbR1 hbR2)
  intro w hw
  unfold MotorController.set_speed at hw
  rcases hLf : lookupPin pins "L_f" with _ | lf <;>
    rcases hLb : lookupPin pins "L_b" with _ | lb <;>
    simp only [hLf, hLb] at hw <;>
    first
    | exact absurd hw (List.not_mem_nil w)
    | (rcases hRf : lookupPin pins "R_f" with _ | rf <;>
       rcases hRb : lookupPin pins "R_b" with _ | rb <;>
       simp only [hRf, hRb, MotorController.apply_pwm, List.mem_append,
         List.mem_cons, List.not_mem_nil, or_false] at hw <;>
       rcases hw with (rfl | rfl) | (rfl | rfl) <;>
       first
       | exact hL.1
       | exact hL.2
       | exact hR.1
       | exact hR.2)

/-- Counterexample to claim C2: in the reachable state with power 80 and
balance `(1.5, 0.5)`, `forward()` writes duty 120 on the left forward
channel, exceeding the default `pwm_range` of 100. -/
theorem duty_bound_counterexample :
    validState ⟨80, 3/2, 1/2⟩ ∧
    (⟨12, 120⟩ : PwmWrite) ∈
      (runCommand goodPins ⟨80, 3/2, 1/2⟩ Command.forward).1 ∧
    ¬ ((120 : ℚ) ≤ 100) ∧ ¬ dutyBoundClaim := by
  have hrun : runCommand goodPins ⟨80, 3/2, 1/2⟩ Command.forward =
      ([⟨12, 120⟩, ⟨13, 0⟩, ⟨18, 40⟩, ⟨19, 0⟩], false) := by
    simp [runCommand, MotorController.forward, MotorController.set_speed,
      lookupPin, goodPins, mkPins, MotorController.apply_pwm,
      MotorController.duty_forward, MotorController.duty_backward]
    norm_num
  have hvalid : validState ⟨80, 3/2, 1/2⟩ := by unfold validState; norm_num
  have hmem : (⟨12, 120⟩ : PwmWrite) ∈
      (runCommand goodPins ⟨80, 3/2, 1/2⟩ Command.forward).1 := by
    rw [hrun]; simp
  refine ⟨hvalid, hmem, by norm_num, fun h => ?_⟩
  have h120 := h goodPins ⟨80, 3/2, 1/2⟩ Command.forward hvalid ⟨12, 120⟩ hmem
  norm_num at h120

/-- Claim C2 amended: every duty value written by any motion command from a
reachable state lies in `[0, 150]`, where `150 = 1.5 × pwm_range`; the
stated bound `pwm_range = 100` itself does not hold (see the
counterexample). -/
theorem duty_values_bounded (pins : List (String × Nat))
    (st : ControllerState) (c : Command) (h : validState st) :
    dutyInAmendedRange (runCommand pins st c).1 := by
  obtain ⟨hp0, hp1, hL1, hL2, hR1, hR2⟩ := h
  have hq0 : (0 : ℚ) ≤ (st.power : ℚ) := by exact_mod_cast hp0
  have hq1 : ((st.power : ℚ)) ≤ 100 := by exact_mod_cast hp1
  cases c <;>
    simp only [runCommand, MotorController.forward, MotorController.backward,
      MotorController.turn_left, MotorController.turn_right,
      MotorController.pivot_left, MotorController.pivot_right,
      MotorController.stop] <;>
    apply set_speed_duty_bound pins st <;>
    first
    | assumption
    | (rw [abs_le]; constructor <;> linarith)

/-- Witness for the amended C2 at the initial state and `forward()`. -/
theorem duty_values_bounded_witness :
    validState initialState ∧
    dutyInAmendedRange (runCommand goodPins initialState Command.forward).1 :=
  ⟨by unfold validState initialState; norm_num,
    duty_values_bounded goodPins initialState Command.forward
      (by unfold validState initialState; norm_num)⟩
